import Mathlib

/-!
Shallow embedding of the AI-RPS-limiter recommendation engine
(src/services/AI-RPS-limiter/main.py).

Python floats are modelled as exact rationals; Python ints as Lean
integers; `datetime` values as rational UTC epoch seconds.  `None` is
modelled by `Option`.  The module-level configuration constants are
fixed at the defaults the code reads from the environment
(lines 38-68 of main.py), except `ALLOW_ALGO_SWITCH`, which is threaded
as a parameter where the decision logic consults it.
-/

namespace RPS

/-- HISTORY_WINDOW_SECONDS default (main.py line 38). -/
def HISTORY_WINDOW_SECONDS : ℤ := 3600

/-- MAX_HISTORY_POINTS default (main.py line 39). -/
def MAX_HISTORY_POINTS : ℕ := 5000

/-- FORECAST_SECONDS default (main.py line 41). -/
def FORECAST_SECONDS : ℤ := 60

/-- FALLBACK_WINDOW_POINTS default (main.py line 42). -/
def FALLBACK_WINDOW_POINTS : ℕ := 5

/-- MIN_CHANGE_INTERVAL_SECONDS default (main.py line 44). -/
def MIN_CHANGE_INTERVAL_SECONDS : ℚ := 30

/-- MIN_RELATIVE_CHANGE default (main.py line 45). -/
def MIN_RELATIVE_CHANGE : ℚ := 1/10

/-- INCREASE_THRESHOLD default (main.py line 46). -/
def INCREASE_THRESHOLD : ℚ := 1/10

/-- DECREASE_THRESHOLD default (main.py line 47). -/
def DECREASE_THRESHOLD : ℚ := 1/5

/-- INCREASE_HEADROOM default (main.py line 48). -/
def INCREASE_HEADROOM : ℚ := 1/20

/-- DECREASE_FACTOR default (main.py line 49). -/
def DECREASE_FACTOR : ℚ := 7/10

/-- MIN_RPS default (main.py line 51). -/
def MIN_RPS : ℚ := 1

/-- MAX_RPS default (main.py line 52). -/
def MAX_RPS : ℚ := 10000

/-- REJECTED_RATE_THRESHOLD default (main.py line 54). -/
def REJECTED_RATE_THRESHOLD : ℚ := 1/10

/-- LATENCY_P95_THRESHOLD default (main.py line 55). -/
def LATENCY_P95_THRESHOLD : ℚ := 1

/-- ERRORS_5XX_THRESHOLD default (main.py line 56). -/
def ERRORS_5XX_THRESHOLD : ℤ := 1

/-- DDOS_MULTIPLIER default (main.py line 57). -/
def DDOS_MULTIPLIER : ℚ := 2

/-- DEFAULT_WINDOW_SECONDS default (main.py line 59). -/
def DEFAULT_WINDOW_SECONDS : ℤ := 60

/-- TOKEN_CAPACITY_SECONDS default (main.py line 60). -/
def TOKEN_CAPACITY_SECONDS : ℚ := 2

/-- MAX_CAPACITY default (main.py line 61). -/
def MAX_CAPACITY : ℤ := 0

/-- MIN_ALGO_SWITCH_INTERVAL_SECONDS default (main.py line 64). -/
def MIN_ALGO_SWITCH_INTERVAL_SECONDS : ℚ := 300

/-- BURSTINESS_THRESHOLD default (main.py line 67). -/
def BURSTINESS_THRESHOLD : ℚ := 3/2

/-- BURSTINESS_POINTS default (main.py line 68). -/
def BURSTINESS_POINTS : ℕ := 10

/-- ALLOWED_ALGORITHMS (main.py line 70). -/
def ALLOWED_ALGORITHMS : List String := ["fixed", "sliding", "token"]

/-- Python `int(x)` applied to a float: truncation toward zero. -/
def pyInt (q : ℚ) : ℤ := if 0 ≤ q then ⌊q⌋ else ⌈q⌉

/-- Round-half-to-even on an exact rational, the rounding Python's
`round` uses (`main.py` applies `round(x, 3)` to exact values here). -/
def roundHalfEven (q : ℚ) : ℤ :=
  let f := ⌊q⌋
  let r := q - f
  if r < 1/2 then f
  else if 1/2 < r then f + 1
  else if f % 2 = 0 then f else f + 1

/-- Python `round(x, 3)`: round to 3 decimal places. -/
def round3 (q : ℚ) : ℚ := (roundHalfEven (q * 1000) : ℚ) / 1000

/-- `clamp` (main.py lines 282-285); `maximum = none` models Python `None`. -/
def clamp (value minimum : ℚ) (maximum : Option ℚ) : ℚ :=
  match maximum with
  | none => max minimum value
  | some m => max minimum (min value m)

/-- `MAX_RPS if MAX_RPS > 0 else None`, as computed at several call sites. -/
def maxRpsOpt : Option ℚ := if MAX_RPS > 0 then some MAX_RPS else none

/-- `LimitConfigIn` (main.py lines 124-141): pydantic model of the
client-reported current limiter config.  `limit`/`fillRate` are floats,
`window`/`capacity` ints; all but `algorithm` optional. -/
structure LimitConfigIn where
  algorithm : String
  limit : Option ℚ := none
  window : Option ℤ := none
  capacity : Option ℤ := none
  fillRate : Option ℚ := none
deriving DecidableEq

/-- The pydantic field constraints of `LimitConfigIn`
(limit ≥ 0, window > 0, capacity ≥ 0, fillRate ≥ 0): any structurally
parsed config satisfies these. -/
def LimitConfigIn.WF (c : LimitConfigIn) : Prop :=
  (∀ l ∈ c.limit, 0 ≤ l) ∧ (∀ w ∈ c.window, 0 < w) ∧
  (∀ k ∈ c.capacity, 0 ≤ k) ∧ (∀ f ∈ c.fillRate, 0 ≤ f)

instance (c : LimitConfigIn) : Decidable c.WF := by
  unfold LimitConfigIn.WF; infer_instance

/-- `LimitConfigRequest` (main.py lines 144-153).  The `timestamp` field
only feeds `parse_timestamp` and the buffer and is modelled separately;
the decision logic never reads it, so it is omitted here. -/
structure LimitConfigRequest where
  observedRps : ℚ
  rejectedRate : Option ℚ := none
  latencyP95 : Option ℚ := none
  errors5xx : Option ℤ := none
  currentConfig : LimitConfigIn
deriving DecidableEq

/-- The pydantic field constraints of `LimitConfigRequest`. -/
def LimitConfigRequest.WF (r : LimitConfigRequest) : Prop :=
  0 ≤ r.observedRps ∧ (∀ x ∈ r.rejectedRate, 0 ≤ x ∧ x ≤ 1) ∧
  (∀ x ∈ r.latencyP95, 0 ≤ x) ∧ (∀ x ∈ r.errors5xx, 0 ≤ x) ∧
  r.currentConfig.WF

instance (r : LimitConfigRequest) : Decidable r.WF := by
  unfold LimitConfigRequest.WF; infer_instance

/-- `LimitConfigResponse` (main.py lines 156-166). -/
structure LimitConfigResponse where
  algorithm : String
  limit : Option ℤ := none
  window : Option ℤ := none
  capacity : Option ℤ := none
  fillRate : Option ℚ := none
  predictedRps : Option ℚ := none
  validFor : Option ℤ := none
deriving DecidableEq

/-- Reading a response body back as an `IncomingConfig` (the spec's
"R treated as IncomingConfig"): fields carried over, the integer limit
becoming a float. -/
def LimitConfigResponse.asIn (r : LimitConfigResponse) : LimitConfigIn :=
  { algorithm := r.algorithm
    limit := r.limit.map (fun n => (n : ℚ))
    window := r.window
    capacity := r.capacity
    fillRate := r.fillRate }

/-- `validate_current_config` (main.py lines 288-301): `some err` on a
semantically invalid config, `none` when clean. -/
def validate_current_config (config : LimitConfigIn) : Option String :=
  if config.algorithm ∉ ALLOWED_ALGORITHMS then
    some ("Unsupported algorithm")
  else if config.algorithm = "fixed" ∨ config.algorithm = "sliding" then
    if config.limit = none ∨ config.window = none then
      some ("limit and window are required for fixed/sliding")
    else if config.limit.getD 0 ≤ 0 ∨ config.window.getD 0 ≤ 0 then
      some ("limit/window must be positive")
    else none
  else if config.algorithm = "token" then
    if config.capacity = none ∨ config.fillRate = none then
      some ("capacity and fillRate are required for token")
    else if config.capacity.getD 0 ≤ 0 ∨ config.fillRate.getD 0 ≤ 0 then
      some ("capacity/fillRate must be positive")
    else none
  else none

/-- `keep_current_response` (main.py lines 304-315): repackage a config
unchanged, truncating the float `limit`/`fillRate` with `int()` where the
response schema wants ints. -/
def keep_current_response (config : LimitConfigIn) (predicted_rps : Option ℚ) :
    LimitConfigResponse :=
  { algorithm := config.algorithm
    limit := config.limit.map pyInt
    window := config.window
    capacity := config.capacity
    fillRate := config.fillRate
    predictedRps := predicted_rps
    validFor := some FORECAST_SECONDS }

/-- `default_fallback_config` (main.py lines 352-364). -/
def default_fallback_config : LimitConfigIn :=
  let window : ℤ := max 1 DEFAULT_WINDOW_SECONDS
  let limit : ℤ := max 1 ⌈MIN_RPS * window⌉
  match maxRpsOpt with
  | none => { algorithm := "fixed", limit := some (limit : ℚ), window := some window }
  | some max_rps =>
    let max_limit : ℤ := ⌊max_rps * window⌋
    let window : ℤ := if max_limit < 1 then max window ⌈1 / max_rps⌉ else window
    let max_limit : ℤ := if max_limit < 1 then ⌊max_rps * window⌋ else max_limit
    let limit : ℤ := if max_limit ≥ 1 then min limit max_limit else limit
    let limit : ℤ := max 1 limit
    { algorithm := "fixed", limit := some (limit : ℚ), window := some window }

/-- `current_rps_limit` (main.py lines 453-456).  Callers only reach it
with a validated config, so the `Option` defaults are never the value
actually used on real paths. -/
def current_rps_limit (config : LimitConfigIn) : ℚ :=
  if config.algorithm = "fixed" ∨ config.algorithm = "sliding" then
    (config.limit.getD 0) / ((config.window.getD 0 : ℤ) : ℚ)
  else
    config.fillRate.getD 0

/-- `TimePoint` (main.py lines 169-172); the timestamp is UTC epoch
seconds as an exact rational. -/
structure TimePoint where
  ts : ℚ
  rps : ℚ
deriving DecidableEq

/-- One microsecond, the bump `timedelta(microseconds=1)` adds. -/
def usec : ℚ := 1/1000000

/-- `DataCollector.__init__` floor `max(1, window_seconds)` (main.py line 177). -/
def collectorWindowSeconds : ℚ := max 1 (HISTORY_WINDOW_SECONDS : ℚ)

/-- `DataCollector.__init__` floor `max(2, max_points)` (main.py line 178). -/
def collectorMaxPoints : ℕ := max 2 MAX_HISTORY_POINTS

/-- `DataCollector._trim` (main.py lines 193-200): drop from the head
while older than `tail.ts - window`, then drop from the head while the
buffer is longer than `max_points`.  The deque is modelled as a list
with the tail at the end. -/
def trimBuf (pts : List TimePoint) : List TimePoint :=
  match pts.getLast? with
  | none => pts
  | some tl =>
    let cutoff := tl.ts - collectorWindowSeconds
    let aged := pts.dropWhile (fun p => p.ts < cutoff)
    aged.drop (aged.length - collectorMaxPoints)

/-- The timestamp adjustment of `DataCollector.add_point`
(main.py lines 184-185): a timestamp at or before the tail is bumped
one microsecond past it. -/
def bumpTs (pts : List TimePoint) (ts : ℚ) : ℚ :=
  match pts.getLast? with
  | some tl => if ts ≤ tl.ts then tl.ts + usec else ts
  | none => ts

/-- `DataCollector.add_point` (main.py lines 182-187): bump a
non-increasing timestamp one microsecond past the tail, push, trim. -/
def add_point (pts : List TimePoint) (ts rps : ℚ) : List TimePoint :=
  trimBuf (pts ++ [⟨bumpTs pts ts, rps⟩])

/-- Folding a whole call sequence of `add_point` over the empty buffer. -/
def bufferAppendAll (calls : List (ℚ × ℚ)) : List TimePoint :=
  calls.foldl (fun pts c => add_point pts c.1 c.2) []

/-- Python `max` of a list of floats (nonempty at its call sites;
`0` is a dead default for the empty list). -/
def listMax : List ℚ → ℚ
  | [] => 0
  | h :: t => t.foldl max h

/-- `fallback_forecast` (main.py lines 267-279): linear extrapolation
over the last `max(1, min(len(points), FALLBACK_WINDOW_POINTS))` points. -/
def fallback_forecast (points : List TimePoint) (horizon_seconds : ℚ) : ℚ :=
  if points = [] then 0
  else
    let n := max 1 (min points.length FALLBACK_WINDOW_POINTS)
    let window := points.drop (points.length - n)
    if window.length = 1 then (window.getLast?.getD ⟨0, 0⟩).rps
    else
      let start := window.head?.getD ⟨0, 0⟩
      let stop := window.getLast?.getD ⟨0, 0⟩
      let total_seconds := stop.ts - start.ts
      if total_seconds ≤ 0 then stop.rps
      else
        let slope := (stop.rps - start.rps) / total_seconds
        max 0 (stop.rps + slope * horizon_seconds)

/-- `is_bursty` (main.py lines 459-466). -/
def is_bursty (points : List TimePoint) : Bool :=
  if points.length < max 2 BURSTINESS_POINTS then false
  else
    let sample := (points.drop (points.length - BURSTINESS_POINTS)).map (fun p => p.rps)
    let mean := sample.sum / (sample.length : ℚ)
    if mean ≤ 0 then false
    else decide (BURSTINESS_THRESHOLD ≤ listMax sample / mean)

/-- `RecommendationState` (main.py lines 233-239); datetimes are
rational epoch seconds. -/
structure RecommendationState where
  last_change_at : Option ℚ := none
  last_algo_switch_at : Option ℚ := none
  last_good_recommendation : Option LimitConfigResponse := none
  last_good_config : Option LimitConfigIn := none
  last_predicted_rps : Option ℚ := none
deriving DecidableEq

/-- `math.isfinite` on the exact-rational model of floats: rationals
carry no infinities or NaN, so the check is identically true; the
revert branch guarded by it in `recommend_config` is kept structurally. -/
def isFiniteQ (_ : ℚ) : Bool := true

/-- `build_response` (main.py lines 469-503). -/
def build_response (algorithm : String) (target_rps : ℚ)
    (current_config : LimitConfigIn) (predicted_rps : Option ℚ) :
    LimitConfigResponse :=
  if algorithm = "fixed" ∨ algorithm = "sliding" then
    -- `int(current_config.window or DEFAULT_WINDOW_SECONDS)`: `or` falls
    -- through on Python-falsy values, i.e. None and 0.
    let window : ℤ := match current_config.window with
      | some w => if w = 0 then DEFAULT_WINDOW_SECONDS else w
      | none => DEFAULT_WINDOW_SECONDS
    let limit : ℤ := ⌈target_rps * (window : ℚ)⌉
    let min_limit : ℤ := ⌈MIN_RPS * (window : ℚ)⌉
    let limit : ℤ := max limit min_limit
    let limit : ℤ := match maxRpsOpt with
      | some m => min limit ⌊m * (window : ℚ)⌋
      | none => limit
    { algorithm := algorithm, limit := some limit, window := some window,
      predictedRps := predicted_rps, validFor := some FORECAST_SECONDS }
  else
    let fill_rate := clamp target_rps MIN_RPS maxRpsOpt
    let capacity : ℤ := ⌈fill_rate * TOKEN_CAPACITY_SECONDS⌉
    let capacity : ℤ := max capacity ⌈MIN_RPS * TOKEN_CAPACITY_SECONDS⌉
    let capacity : ℤ := if (capacity : ℚ) < fill_rate then ⌈fill_rate⌉ else capacity
    let capacity : ℤ := if MAX_CAPACITY > 0 then min capacity MAX_CAPACITY else capacity
    { algorithm := algorithm, capacity := some capacity,
      fillRate := some (round3 fill_rate),
      predictedRps := predicted_rps, validFor := some FORECAST_SECONDS }

/-- `configs_equal` (main.py lines 506-514).  The `Option` defaults model
fields the guarded Python code never actually dereferences as `None`. -/
def configs_equal (current : LimitConfigIn) (recommended : LimitConfigResponse) :
    Bool :=
  if current.algorithm ≠ recommended.algorithm then false
  else if current.algorithm = "fixed" ∨ current.algorithm = "sliding" then
    decide (some (pyInt (current.limit.getD 0)) = recommended.limit ∧
      current.window = recommended.window)
  else
    decide (some (current.capacity.getD 0) = recommended.capacity ∧
      |current.fillRate.getD 0 - (recommended.fillRate.getD 0)| < 1/1000000)

/-- The straight-line target computation of `recommend_config`
(main.py lines 525-549): clamp the forecast, derive overload and spike
signals, pick the first matching rule, clamp, revert if non-finite. -/
def recommend_target (request : LimitConfigRequest) (predicted0 : ℚ) : ℚ :=
  let current_limit := current_rps_limit request.currentConfig
  let predicted_rps := clamp predicted0 0 maxRpsOpt
  let overload :=
    (match request.rejectedRate with
     | some r => decide (REJECTED_RATE_THRESHOLD ≤ r)
     | none => false) ||
    (match request.latencyP95 with
     | some l => decide (LATENCY_P95_THRESHOLD ≤ l)
     | none => false) ||
    (match request.errors5xx with
     | some e => decide (ERRORS_5XX_THRESHOLD ≤ e)
     | none => false)
  let spike := decide (current_limit * DDOS_MULTIPLIER ≤ predicted_rps)
  let target_rps :=
    if overload || spike then current_limit * DECREASE_FACTOR
    else if current_limit * (1 + INCREASE_THRESHOLD) < predicted_rps then
      predicted_rps * (1 + INCREASE_HEADROOM)
    else if predicted_rps < current_limit * (1 - DECREASE_THRESHOLD) then
      predicted_rps
    else current_limit
  let target_rps := clamp target_rps MIN_RPS maxRpsOpt
  if isFiniteQ target_rps then target_rps else current_limit

/-- `recommend_config` (main.py lines 517-595) as a state transformer.
`allowSwitch` is the `ALLOW_ALGO_SWITCH` environment flag. -/
def recommend_config (allowSwitch : Bool) (request : LimitConfigRequest)
    (predicted0 : ℚ) (history_points : List TimePoint)
    (state : RecommendationState) (now : ℚ) :
    LimitConfigResponse × RecommendationState :=
  let current_config := request.currentConfig
  let current_limit := current_rps_limit current_config
  let predicted_rps := clamp predicted0 0 maxRpsOpt
  let target_rps := recommend_target request predicted0
  let algo_switch_allowed := allowSwitch &&
    (match state.last_algo_switch_at with
     | none => true
     | some t => decide (MIN_ALGO_SWITCH_INTERVAL_SECONDS ≤ now - t))
  let desired_algorithm :=
    if algo_switch_allowed && is_bursty history_points then "token"
    else if algo_switch_allowed && !(is_bursty history_points) then
      (if current_config.algorithm = "token" then "sliding"
       else current_config.algorithm)
    else current_config.algorithm
  let recommendation :=
    build_response desired_algorithm target_rps current_config
      (some (round3 predicted_rps))
  let relative_change :=
    if 0 < current_limit then |target_rps - current_limit| / current_limit else 0
  let recent_change_block :=
    match state.last_change_at with
    | some t => decide (now - t < MIN_CHANGE_INTERVAL_SECONDS)
    | none => false
  if configs_equal current_config recommendation then (recommendation, state)
  else if desired_algorithm = current_config.algorithm &&
      decide (relative_change < MIN_RELATIVE_CHANGE) then
    (build_response current_config.algorithm current_limit current_config
        (some (round3 predicted_rps)),
     state)
  else if recent_change_block then
    (build_response current_config.algorithm current_limit current_config
        (some (round3 predicted_rps)),
     state)
  else
    (recommendation,
     { state with
        last_change_at := some now
        last_algo_switch_at :=
          if desired_algorithm ≠ current_config.algorithm then some now
          else state.last_algo_switch_at })

/-- JSON values, for the raw payload the malformed-body handler probes. -/
inductive JVal where
  | null
  | bool (b : Bool)
  | num (q : ℚ)
  | str (s : String)
  | arr (elems : List JVal)
  | obj (fields : List (String × JVal))

/-- `value is not None` test used by the merge loop. -/
def JVal.isNull : JVal → Bool
  | JVal.null => true
  | _ => false

/-- Digits of a decimal literal as a rational. -/
def natOfDigits (cs : List Char) : ℚ :=
  cs.foldl (fun a c => a * 10 + ((c.toNat - 48 : ℕ) : ℚ)) 0

/-- Python `float(s)` on decimal literals `[sign] digits [. digits]
[e|E [sign] digits]` (whitespace stripped).  The special literals
`inf`/`nan` have no rational counterpart and are modelled as parse
failures. -/
def parseDecimalString (s : String) : Option ℚ :=
  let cs := s.trim.toList
  let signAndRest : ℚ × List Char := match cs with
    | '-' :: t => (-1, t)
    | '+' :: t => (1, t)
    | _ => (1, cs)
  let sign := signAndRest.1
  let cs := signAndRest.2
  let intPart := cs.takeWhile (fun c => c.isDigit)
  let rest := cs.dropWhile (fun c => c.isDigit)
  let withExp : List Char → ℚ → Option ℚ := fun tail mantissa =>
    match tail with
    | [] => some mantissa
    | 'e' :: ec | 'E' :: ec =>
      let expSignAndRest : Bool × List Char := match ec with
        | '-' :: t => (true, t)
        | '+' :: t => (false, t)
        | _ => (false, ec)
      let ds := expSignAndRest.2
      if ds.isEmpty ∨ ¬ ds.all (fun c => c.isDigit) then none
      else
        let e := ds.foldl (fun a c => a * 10 + (c.toNat - 48)) 0
        some (if expSignAndRest.1 then mantissa / 10 ^ e else mantissa * 10 ^ e)
    | _ => none
  match rest with
  | '.' :: tail =>
    let fracPart := tail.takeWhile (fun c => c.isDigit)
    let tail := tail.dropWhile (fun c => c.isDigit)
    if intPart.isEmpty ∧ fracPart.isEmpty then none
    else withExp tail (natOfDigits intPart + natOfDigits fracPart / 10 ^ fracPart.length)
  | tail =>
    if intPart.isEmpty then none
    else withExp tail (natOfDigits intPart) |>.map (· * 1) |>.map (sign * ·)

/-- Python `int(s)` on integer literals. -/
def parseIntString (s : String) : Option ℤ :=
  let cs := s.trim.toList
  let signAndRest : ℤ × List Char := match cs with
    | '-' :: t => (-1, t)
    | '+' :: t => (1, t)
    | _ => (1, cs)
  let ds := signAndRest.2
  if ds.isEmpty ∨ ¬ ds.all (fun c => c.isDigit) then none
  else some (signAndRest.1 * (ds.foldl (fun a c => a * 10 + (c.toNat - 48)) 0 : ℕ))

/-- pydantic-v1 coercion into a `float` field (numbers, bools and
numeric strings pass; containers and null fail). -/
def jToFloat : JVal → Option ℚ
  | JVal.num q => some q
  | JVal.bool b => some (if b then 1 else 0)
  | JVal.str s => parseDecimalString s
  | _ => none

/-- pydantic-v1 coercion into an `int` field (Python `int()` truncates
floats toward zero; integer-literal strings pass). -/
def jToInt : JVal → Option ℤ
  | JVal.num q => some (pyInt q)
  | JVal.bool b => some (if b then 1 else 0)
  | JVal.str s => parseIntString s
  | _ => none

/-- The `_normalize_algorithm` pre-validator (main.py lines 134-141)
followed by pydantic's `str` coercion: strings are stripped, lowercased
and de-aliased; non-strings pass through the validator untouched and
pydantic then stringifies scalars (the resulting text is never an
allowed algorithm; its exact spelling is irrelevant downstream). -/
def normalize_algorithm : JVal → Option String
  | JVal.str s =>
    let t := s.trim.toLower
    some (if t = "token_bucket" ∨ t = "tokenbucket" then "token" else t)
  | JVal.bool b => some (if b then ("True") else ("False"))
  | JVal.num q => some (toString q)
  | _ => none

/-- Read an optional float field of `LimitConfigIn` from a merged raw
record: absent or null is `None`; a present value must coerce. -/
def parseFloatField (fs : List (String × JVal)) (k : String) : Option (Option ℚ) :=
  match fs.lookup k with
  | none => some none
  | some JVal.null => some none
  | some v => (jToFloat v).map some

/-- Read an optional int field of `LimitConfigIn` from a merged raw record. -/
def parseIntField (fs : List (String × JVal)) (k : String) : Option (Option ℤ) :=
  match fs.lookup k with
  | none => some none
  | some JVal.null => some none
  | some v => (jToInt v).map some

/-- `LimitConfigIn(**merged)` (main.py line 335): pydantic construction
from a raw record, `none` when a `ValidationError` is raised.  Extra
keys are ignored (`extra = "ignore"`); the `ge`/`gt` field constraints
are enforced. -/
def limitConfigInOfFields (fs : List (String × JVal)) : Option LimitConfigIn :=
  match fs.lookup ("algorithm") with
  | none => none
  | some av =>
    match normalize_algorithm av, parseFloatField fs ("limit"),
        parseIntField fs ("window"), parseIntField fs ("capacity"),
        parseFloatField fs ("fillRate") with
    | some algo, some limit, some window, some capacity, some fillRate =>
      if (∀ l ∈ limit, 0 ≤ l) ∧ (∀ w ∈ window, 0 < w) ∧
          (∀ c ∈ capacity, 0 ≤ c) ∧ (∀ f ∈ fillRate, 0 ≤ f) then
        some { algorithm := algo, limit := limit, window := window,
               capacity := capacity, fillRate := fillRate }
      else none
    | _, _, _, _, _ => none

/-- `fallback.dict(exclude_none=True)` (main.py line 328) rendered back
as a raw record. -/
def configFields (c : LimitConfigIn) : List (String × JVal) :=
  [(("algorithm"), JVal.str c.algorithm)] ++
  (match c.limit with | some l => [(("limit"), JVal.num l)] | none => []) ++
  (match c.window with | some w => [(("window"), JVal.num w)] | none => []) ++
  (match c.capacity with | some k => [(("capacity"), JVal.num k)] | none => []) ++
  (match c.fillRate with | some f => [(("fillRate"), JVal.num f)] | none => [])

/-- Store `k ↦ v` in a raw record (Python dict assignment). -/
def setField (fs : List (String × JVal)) (k : String) (v : JVal) :
    List (String × JVal) :=
  if (fs.lookup k).isSome then
    fs.map (fun kv => if kv.1 = k then (k, v) else kv)
  else fs ++ [(k, v)]

/-- The merge loop of `coerce_current_config` (main.py lines 326-331):
non-null incoming entries win over the fallback's fields. -/
def mergeFields (base raw : List (String × JVal)) : List (String × JVal) :=
  raw.foldl (fun acc kv => if kv.2.isNull then acc else setField acc kv.1 kv.2)
    base

/-- The merge-and-build core of `coerce_current_config`
(main.py lines 326-340), reached when the raw payload carries a
`currentConfig` record. -/
def coerce_core (cfs : List (String × JVal)) (fallback : Option LimitConfigIn) :
    Option LimitConfigIn :=
  let base := match fallback with
    | some fb => configFields fb
    | none => []
  let merged := mergeFields base cfs
  if merged.isEmpty then fallback
  else
    match limitConfigInOfFields merged with
    | some candidate =>
      if validate_current_config candidate = none then some candidate
      else fallback
    | none => fallback

/-- `coerce_current_config` (main.py lines 318-340).  `payload = none`
models a body that did not parse as JSON at all. -/
def coerce_current_config (payload : Option JVal)
    (fallback : Option LimitConfigIn) : Option LimitConfigIn :=
  match payload with
  | some (JVal.obj fs) =>
    match fs.lookup ("currentConfig") with
    | some (JVal.obj cfs) => coerce_core cfs fallback
    | _ => fallback
  | _ => fallback

/-- The decision core of the `POST /v1/limit-config` endpoint
(main.py lines 680-740) as a state transformer.  The buffer append and
the forecaster run before this logic and are modelled separately:
`history` is the snapshot and `forecastOut` the forecaster's return
value (`none` meaning `use observedRps`).  Metrics and logging are
omitted. -/
def limit_config (allowSwitch : Bool) (request : LimitConfigRequest)
    (forecastOut : Option ℚ) (history : List TimePoint)
    (state : RecommendationState) (received_at : ℚ) :
    LimitConfigResponse × RecommendationState :=
  let predicted := clamp (forecastOut.getD request.observedRps) 0 maxRpsOpt
  let predicted_rps := round3 predicted
  let state := { state with last_predicted_rps := some predicted_rps }
  match validate_current_config request.currentConfig with
  | some _ =>
    let fallback_config := state.last_good_config.getD default_fallback_config
    (keep_current_response fallback_config (some predicted_rps), state)
  | none =>
    let pair := recommend_config allowSwitch request predicted history state received_at
    (pair.1,
     { pair.2 with
        last_good_recommendation := some pair.1
        last_good_config := some request.currentConfig })

/-- The `/v1/limit-config` branch of `request_validation_exception_handler`
(main.py lines 609-666): the state is read but never written; the reply
is a 200 whose body is returned here.  Metrics are omitted. -/
def request_validation_handler (payload : Option JVal)
    (state : RecommendationState) :
    LimitConfigResponse × RecommendationState :=
  let fallback_config := state.last_good_config
  let fallback_recommendation := state.last_good_recommendation
  let last_predicted_rps := state.last_predicted_rps
  match coerce_current_config payload fallback_config with
  | some cfg => (keep_current_response cfg last_predicted_rps, state)
  | none =>
    match fallback_recommendation with
    | some r => (r, state)
    | none =>
      (keep_current_response default_fallback_config last_predicted_rps, state)

/-- The request's `timestamp` field as delivered by pydantic:
`Union[str, float, int]`, or absent. -/
inductive TsValue where
  | num (q : ℚ)
  | str (s : String)
deriving DecidableEq

/-- The Python exceptions `datetime.fromtimestamp` raises on
out-of-range input. -/
inductive PyExc where
  | valueError
  | overflowError
deriving DecidableEq

/-- Largest 64-bit `time_t` value. -/
def TIME_T_MAX : ℚ := 9223372036854775807

/-- Epoch seconds of `datetime.min` (year 1). -/
def DATETIME_MIN_EPOCH : ℚ := -62135596800

/-- One past the epoch seconds of `datetime.max` (year 9999). -/
def DATETIME_MAX_EPOCH : ℚ := 253402300800

/-- CPython `datetime.fromtimestamp(t, tz=timezone.utc)`: raises
`OverflowError` when `t` exceeds the platform `time_t` range and
`ValueError` when the resulting year falls outside 1..9999; otherwise
returns the instant (modelled as its epoch seconds). -/
def pyFromTimestamp (q : ℚ) : Except PyExc ℚ :=
  if q < -TIME_T_MAX ∨ TIME_T_MAX < q then Except.error PyExc.overflowError
  else if q < DATETIME_MIN_EPOCH ∨ DATETIME_MAX_EPOCH ≤ q then
    Except.error PyExc.valueError
  else Except.ok q

/-- A parsed `datetime`: epoch seconds plus whether it carried a tzinfo
(a naive result is reinterpreted as UTC, leaving the epoch unchanged). -/
structure PyDateTime where
  epoch : ℚ
  aware : Bool

/-- `parse_timestamp` (main.py lines 242-264).  `isoParse` abstracts the
stdlib `datetime.fromisoformat`; `now` is the wall clock.  The numeric
branch (lines 250-251) sits under no `try`, so `fromtimestamp` errors
propagate; in the string branch only `ValueError` is caught (line 262),
so an `OverflowError` propagates there too.  The `isinstance(value,
datetime)` branch is unreachable from JSON input and is omitted. -/
def parse_timestamp (isoParse : String → Option PyDateTime) (now : ℚ) :
    Option TsValue → Except PyExc ℚ
  | none => Except.ok now
  | some (TsValue.num q) => pyFromTimestamp q
  | some (TsValue.str s) =>
    let normalized := s.replace ("Z") ("+00:00")
    match isoParse normalized with
    | some dt => Except.ok dt.epoch
    | none =>
      match parseDecimalString s with
      | none => Except.ok now
      | some q =>
        match pyFromTimestamp q with
        | Except.ok t => Except.ok t
        | Except.error PyExc.valueError => Except.ok now
        | Except.error e => Except.error e

/-- Spec-side definition (spec §4.4 step 2): the overload signal. -/
def specOverload (request : LimitConfigRequest) : Bool :=
  (match request.rejectedRate with
   | some r => decide (r ≥ REJECTED_RATE_THRESHOLD)
   | none => false) ||
  (match request.latencyP95 with
   | some l => decide (l ≥ LATENCY_P95_THRESHOLD)
   | none => false) ||
  (match request.errors5xx with
   | some e => decide (e ≥ ERRORS_5XX_THRESHOLD)
   | none => false)

/-- Spec-side definition (spec §4.4 step 3): the spike signal. -/
def specSpike (predicted current_limit : ℚ) : Bool :=
  decide (predicted ≥ current_limit * DDOS_MULTIPLIER)

/-- Spec-side definition, following claim C4's words verbatim: first
matching rule picks the target, then clamp to `[MinRps, MaxRps]`, then
revert to the current limit if non-finite. -/
def specTargetC4 (request : LimitConfigRequest) (predicted : ℚ) : ℚ :=
  let currentLimit := current_rps_limit request.currentConfig
  let target :=
    if specOverload request || specSpike predicted currentLimit then
      currentLimit * DECREASE_FACTOR
    else if predicted > currentLimit * (1 + INCREASE_THRESHOLD) then
      predicted * (1 + INCREASE_HEADROOM)
    else if predicted < currentLimit * (1 - DECREASE_THRESHOLD) then
      predicted
    else currentLimit
  let clamped := clamp target MIN_RPS maxRpsOpt
  if isFiniteQ clamped then clamped else currentLimit

/-- Spec-side definition, following claim C8's words: over the last
`k = min(len(points), FallbackWindowPoints)` points, return the single
point's RPS when `k = 1`, the last RPS when the span is non-positive,
else `max(0, rps_end + slope * horizon)`. -/
def specFallbackForecast (points : List TimePoint) (horizon : ℚ) : ℚ :=
  let k := min points.length FALLBACK_WINDOW_POINTS
  let window := points.drop (points.length - k)
  if k = 1 then (window.getLast?.getD ⟨0, 0⟩).rps
  else
    let rps_start := (window.head?.getD ⟨0, 0⟩).rps
    let rps_end := (window.getLast?.getD ⟨0, 0⟩).rps
    let span := (window.getLast?.getD ⟨0, 0⟩).ts - (window.head?.getD ⟨0, 0⟩).ts
    if span ≤ 0 then rps_end
    else max 0 (rps_end + (rps_end - rps_start) / span * horizon)

/-- The spec's response invariant (§3): a successful decision response
read back as an IncomingConfig validates, `validFor = ForecastSeconds`,
and the predicted RPS (0 when absent) is non-negative. -/
def ResponseOK (r : LimitConfigResponse) : Prop :=
  validate_current_config r.asIn = none ∧
  r.validFor = some FORECAST_SECONDS ∧
  0 ≤ r.predictedRps.getD 0

instance (r : LimitConfigResponse) : Decidable (ResponseOK r) := by
  unfold ResponseOK; infer_instance

/-- A config whose `keep_current_response` survives the `int()`
truncation of `limit`: a fixed/sliding limit of at least 1. -/
def KeepSafe (c : LimitConfigIn) : Prop :=
  ∀ l ∈ c.limit, (c.algorithm = "fixed" ∨ c.algorithm = "sliding") → 1 ≤ l

instance (c : LimitConfigIn) : Decidable (KeepSafe c) := by
  unfold KeepSafe; infer_instance

/-- The state facts the happy path maintains: any stored last-good
config validates and is keep-safe, any stored last recommendation
satisfies the response invariant, and the published last predicted RPS
is non-negative. -/
def StateOK (st : RecommendationState) : Prop :=
  (∀ c ∈ st.last_good_config, validate_current_config c = none ∧ KeepSafe c) ∧
  (∀ r ∈ st.last_good_recommendation, ResponseOK r) ∧
  0 ≤ st.last_predicted_rps.getD 0

instance (st : RecommendationState) : Decidable (StateOK st) := by
  unfold StateOK; infer_instance

instance : DecidableEq (Except PyExc ℚ) := fun x y =>
  match x, y with
  | Except.ok a, Except.ok b =>
    if h : a = b then isTrue (by rw [h]) else isFalse (by simp [h])
  | Except.ok _, Except.error _ => isFalse (by simp)
  | Except.error _, Except.ok _ => isFalse (by simp)
  | Except.error a, Except.error b =>
    if h : a = b then isTrue (by rw [h]) else isFalse (by simp [h])

/-!  Theorems.  -/

/-- Claim C10 (confirmed): `validate_current_config` accepts the fixed
config with the non-integer positive limit 0.5 and window 1 (only
positivity of the float `limit` is checked), and `keep_current_response`
applied to that validated config truncates the limit with `int()` to 0,
producing a response that itself fails `validate_current_config`. -/
theorem keep_current_truncation_flaw :
    validate_current_config
        { algorithm := "fixed", limit := some (1/2), window := some 1 } = none ∧
    (keep_current_response
        { algorithm := "fixed", limit := some (1/2), window := some 1 } none).limit
      = some 0 ∧
    validate_current_config
        ((keep_current_response
          { algorithm := "fixed", limit := some (1/2), window := some 1 } none).asIn)
      ≠ none := by
  with_unfolding_all decide

/-- Claim C9 (code_bug evidence): a numeric `timestamp` of `10 ^ 20`
reaches `datetime.fromtimestamp` outside any `try`, so the
`OverflowError` propagates instead of falling back to the wall clock;
an absent timestamp does yield the wall clock.  This holds for every
ISO-parser behaviour and wall-clock value. -/
theorem parse_timestamp_numeric_overflow
    (isoParse : String → Option PyDateTime) (now : ℚ) :
    parse_timestamp isoParse now (some (TsValue.num (10 ^ 20))) =
      Except.error PyExc.overflowError ∧
    parse_timestamp isoParse now none = Except.ok now := by
  constructor
  · show pyFromTimestamp (10 ^ 20) = Except.error PyExc.overflowError
    with_unfolding_all decide
  · rfl

/-- Claim C4 (confirmed): on the happy decision path the target RPS the
code computes (`recommend_target`, the straight-line body of
`recommend_config`) equals the spec's first-matching-rule formula
(`specTargetC4`) applied to the clamped forecast: overload-or-spike
decrease, headroom increase, decrease to prediction, keep, then clamp
to `[MinRps, MaxRps]` and revert if non-finite. -/
theorem recommend_target_matches_spec
    (request : LimitConfigRequest) (predicted0 : ℚ) :
    recommend_target request predicted0 =
      specTargetC4 request (clamp predicted0 0 maxRpsOpt) := by
  rfl

/-- Claim C8 (confirmed): for a non-empty point list the fallback
forecast equals the spec's formula — the single point's RPS when
`k = 1`, the last RPS when the window's time span is non-positive, and
`max(0, rps_end + slope * horizon)` otherwise — and, for non-negative
input RPS values, the result is non-negative. -/
theorem fallback_forecast_matches_spec (points : List TimePoint) (horizon : ℚ)
    (hne : points ≠ []) (hnn : ∀ p ∈ points, 0 ≤ p.rps) :
    fallback_forecast points horizon = specFallbackForecast points horizon ∧
    0 ≤ fallback_forecast points horizon := by
  have hlen : 1 ≤ points.length := List.length_pos.mpr hne
  have hk1 : 1 ≤ min points.length FALLBACK_WINDOW_POINTS := by
    have : 1 ≤ FALLBACK_WINDOW_POINTS := by norm_num [FALLBACK_WINDOW_POINTS]
    omega
  have hn : max 1 (min points.length FALLBACK_WINDOW_POINTS) =
      min points.length FALLBACK_WINDOW_POINTS := by omega
  have hwlen : (points.drop
      (points.length - min points.length FALLBACK_WINDOW_POINTS)).length =
      min points.length FALLBACK_WINDOW_POINTS := by
    rw [List.length_drop]; omega
  have hwne : points.drop
      (points.length - min points.length FALLBACK_WINDOW_POINTS) ≠ [] := by
    rw [← List.length_pos]; omega
  have hmemlast : (points.drop
      (points.length - min points.length FALLBACK_WINDOW_POINTS)).getLast?.getD
        ⟨0, 0⟩ ∈ points := by
    match hx : (points.drop
        (points.length - min points.length FALLBACK_WINDOW_POINTS)).getLast? with
    | some x =>
      simp only [Option.getD_some]
      exact List.drop_subset _ _ (List.mem_of_getLast?_eq_some hx)
    | none => exact absurd (List.getLast?_eq_none_iff.mp hx) hwne
  constructor
  · simp only [fallback_forecast, specFallbackForecast, if_neg hne, hn, hwlen]
  · simp only [fallback_forecast, if_neg hne, hn, hwlen]
    by_cases h1 : min points.length FALLBACK_WINDOW_POINTS = 1
    · rw [if_pos h1]
      exact hnn _ hmemlast
    · rw [if_neg h1]
      split
      · exact hnn _ hmemlast
      · exact le_max_left 0 _

/-- Concrete instance of `fallback_forecast_matches_spec`. -/
theorem fallback_forecast_matches_spec_witness :
    fallback_forecast [⟨0, 10⟩, ⟨1, 20⟩] 60 =
      specFallbackForecast [⟨0, 10⟩, ⟨1, 20⟩] 60 ∧
    0 ≤ fallback_forecast [⟨0, 10⟩, ⟨1, 20⟩] 60 :=
  fallback_forecast_matches_spec [⟨0, 10⟩, ⟨1, 20⟩] 60 (by simp)
    (by intro p hp; fin_cases hp <;> norm_num)

/-- A config that validates has an allowed algorithm
(first check of `validate_current_config`). -/
theorem validate_none_allowed (c : LimitConfigIn)
    (h : validate_current_config c = none) : c.algorithm ∈ ALLOWED_ALGORITHMS := by
  by_contra hmem
  rw [validate_current_config, if_pos hmem] at h
  exact Option.noConfusion h

/-- A validated fixed/sliding config carries a positive limit and window. -/
theorem validate_none_fixed (c : LimitConfigIn)
    (h : validate_current_config c = none)
    (halgo : c.algorithm = "fixed" ∨ c.algorithm = "sliding") :
    ∃ l wdw, c.limit = some l ∧ c.window = some wdw ∧ 0 < l ∧ 0 < wdw := by
  have hmem := validate_none_allowed c h
  rw [validate_current_config, if_neg (by simpa using hmem), if_pos halgo] at h
  split at h
  · exact absurd h (by simp)
  · next hne =>
    split at h
    · exact absurd h (by simp)
    · next hpos =>
      push_neg at hne hpos
      obtain ⟨l, hl⟩ := Option.ne_none_iff_exists'.mp hne.1
      obtain ⟨wdw, hw⟩ := Option.ne_none_iff_exists'.mp hne.2
      refine ⟨l, wdw, hl, hw, ?_, ?_⟩
      · have := hpos.1; rw [hl] at this; simpa using this
      · have := hpos.2; rw [hw] at this; simpa using this

/-- A validated token config carries a positive capacity and fill rate. -/
theorem validate_none_token (c : LimitConfigIn)
    (h : validate_current_config c = none)
    (halgo : c.algorithm = "token") :
    ∃ k f, c.capacity = some k ∧ c.fillRate = some f ∧ 0 < k ∧ 0 < f := by
  have hmem := validate_none_allowed c h
  have hns : ¬ (c.algorithm = "fixed" ∨ c.algorithm = "sliding") := by
    rw [halgo]; simp
  rw [validate_current_config, if_neg (by simpa using hmem), if_neg hns,
    if_pos halgo] at h
  split at h
  · exact absurd h (by simp)
  · next hne =>
    split at h
    · exact absurd h (by simp)
    · next hpos =>
      push_neg at hne hpos
      obtain ⟨k, hk⟩ := Option.ne_none_iff_exists'.mp hne.1
      obtain ⟨f, hf⟩ := Option.ne_none_iff_exists'.mp hne.2
      refine ⟨k, f, hk, hf, ?_, ?_⟩
      · have := hpos.1; rw [hk] at this; simpa using this
      · have := hpos.2; rw [hf] at this; simpa using this
/-- Claim C2 (amended): for a validated fixed/sliding config whose limit
is an integer `n` and whose current RPS limit `n/w` lies in
`[MinRps, MaxRps]`, `build_response` returns a config equal to it under
the section-4.5 equality; for a validated token config the same holds
provided additionally the stored capacity equals the one
`build_response` recomputes from the fill rate and the fill rate has at
most 3 decimal places (is an integer multiple of 1/1000). -/
theorem build_response_round_trip :
    (∀ (c : LimitConfigIn) (p : Option ℚ) (n w : ℤ),
      c.limit = some ((n : ℤ) : ℚ) → c.window = some w →
      validate_current_config c = none →
      (c.algorithm = "fixed" ∨ c.algorithm = "sliding") →
      MIN_RPS ≤ (n : ℚ) / (w : ℚ) → (n : ℚ) / (w : ℚ) ≤ MAX_RPS →
      configs_equal c (build_response c.algorithm ((n : ℚ) / (w : ℚ)) c p) = true) ∧
    (∀ (c : LimitConfigIn) (p : Option ℚ) (f : ℚ) (m : ℤ),
      c.algorithm = "token" →
      c.fillRate = some f → f * 1000 = (m : ℚ) →
      c.capacity = some (max ⌈f * TOKEN_CAPACITY_SECONDS⌉ ⌈MIN_RPS * TOKEN_CAPACITY_SECONDS⌉) →
      MIN_RPS ≤ f → f ≤ MAX_RPS →
      configs_equal c (build_response c.algorithm f c p) = true) := by
  have hmaxopt : maxRpsOpt = some 10000 := by
    rw [maxRpsOpt, if_pos (by norm_num [MAX_RPS]), MAX_RPS]
  constructor
  · intro c p n w hlim hwin hval halgo hlo hhi
    obtain ⟨l0, w0, hl0, hw0, hlpos, hwpos⟩ := validate_none_fixed c hval halgo
    rw [hlim] at hl0
    rw [hwin] at hw0
    have hl0e : ((n : ℤ) : ℚ) = l0 := by injection hl0
    have hw0e : w = w0 := by injection hw0
    subst hw0e
    have hnQ : (0:ℚ) < (n : ℚ) := hl0e ▸ hlpos
    have hnZ : 0 < n := by exact_mod_cast hnQ
    have hwQ : (0 : ℚ) < ((w : ℤ) : ℚ) := by exact_mod_cast hwpos
    have hwne : ((w : ℤ) : ℚ) ≠ 0 := ne_of_gt hwQ
    have hwn : w ≤ n := by
      have h1 : ((w : ℤ) : ℚ) ≤ (n : ℚ) :=
        (one_le_div hwQ).mp (by simpa [MIN_RPS] using hlo)
      exact_mod_cast h1
    have hmaxw : n ≤ 10000 * w := by
      have h1 : (n : ℚ) ≤ ((10000 * w : ℤ) : ℚ) := by
        have h2 := (div_le_iff₀ hwQ).mp (by simpa [MAX_RPS] using hhi)
        push_cast
        linarith
      exact_mod_cast h1
    have hbuild : build_response c.algorithm ((n : ℚ) / (w : ℚ)) c p =
        { algorithm := c.algorithm, limit := some n, window := some w,
          predictedRps := p, validFor := some FORECAST_SECONDS } := by
      rw [build_response, if_pos halgo, hwin, hmaxopt]
      simp only [if_neg (show ¬ w = 0 by omega)]
      rw [div_mul_cancel₀ _ hwne, Int.ceil_intCast, MIN_RPS, one_mul,
        Int.ceil_intCast]
      rw [show (10000 : ℚ) * ((w : ℤ) : ℚ) = ((10000 * w : ℤ) : ℚ) by push_cast; ring,
        Int.floor_intCast]
      rw [max_eq_left hwn, min_eq_left hmaxw]
    rw [hbuild, configs_equal]
    rw [if_neg (by simp), if_pos halgo]
    simp only [hlim, hwin, Option.getD_some, decide_eq_true_eq]
    refine ⟨?_, trivial⟩
    rw [pyInt, if_pos (le_of_lt hnQ), Int.floor_intCast]
  · intro c p f m halgo hfr hf3 hcap hlo hhi
    have hf1 : (1 : ℚ) ≤ f := by rw [MIN_RPS] at hlo; exact hlo
    have h2f : f ≤ ⌈f * TOKEN_CAPACITY_SECONDS⌉ := by
      have h1 : f ≤ f * TOKEN_CAPACITY_SECONDS := by
        rw [TOKEN_CAPACITY_SECONDS]
        nlinarith [hf1]
      calc f ≤ f * TOKEN_CAPACITY_SECONDS := h1
        _ ≤ ⌈f * TOKEN_CAPACITY_SECONDS⌉ := Int.le_ceil _
    have hclampf : clamp f MIN_RPS maxRpsOpt = f := by
      rw [hmaxopt, clamp, min_eq_left (by rw [MAX_RPS] at hhi; exact hhi),
        max_eq_right (by rw [MIN_RPS] at hlo; exact hlo)]
    have hfm : f = (m : ℚ) / 1000 := by
      rw [eq_div_iff (by norm_num : (1000 : ℚ) ≠ 0)]
      exact hf3
    have hround : round3 f = f := by
      rw [round3, hf3, roundHalfEven]
      norm_num [Int.floor_intCast]
      exact hfm.symm
    have hns : ¬ (c.algorithm = "fixed" ∨ c.algorithm = "sliding") := by
      rw [halgo]; simp
    have hbuild : build_response c.algorithm f c p =
        { algorithm := c.algorithm,
          capacity := some (max ⌈f * TOKEN_CAPACITY_SECONDS⌉ ⌈MIN_RPS * TOKEN_CAPACITY_SECONDS⌉),
          fillRate := some f, predictedRps := p,
          validFor := some FORECAST_SECONDS } := by
      simp only [build_response, if_neg hns, hclampf, hround]
      rw [if_neg (show ¬ ((max ⌈f * TOKEN_CAPACITY_SECONDS⌉ ⌈MIN_RPS * TOKEN_CAPACITY_SECONDS⌉ : ℤ) : ℚ) < f by
        push_neg
        calc f ≤ (⌈f * TOKEN_CAPACITY_SECONDS⌉ : ℚ) := by exact_mod_cast h2f
          _ ≤ _ := by exact_mod_cast Int.le_max_left _ _)]
      rw [if_neg (show ¬ (MAX_CAPACITY > 0) by norm_num [MAX_CAPACITY])]
    rw [hbuild, configs_equal]
    rw [if_neg (by simp), if_neg hns]
    simp only [hcap, hfr, Option.getD_some, decide_eq_true_eq]
    refine ⟨trivial, ?_⟩
    simp only [sub_self, abs_zero]
    norm_num
/-- Counterexample to claim C2 as stated: the fixed config with the
non-integer limit 1.5 and window 1 validates and has its current RPS
limit 1.5 inside `[MinRps, MaxRps]`, yet `build_response` rounds the
limit up to 2 while `configs_equal` truncates 1.5 to 1, so the round
trip is not an equality. -/
theorem build_response_round_trip_cex :
    validate_current_config
        { algorithm := "fixed", limit := some (3/2), window := some 1 } = none ∧
    MIN_RPS ≤ current_rps_limit
        { algorithm := "fixed", limit := some (3/2), window := some 1 } ∧
    current_rps_limit
        { algorithm := "fixed", limit := some (3/2), window := some 1 } ≤ MAX_RPS ∧
    configs_equal { algorithm := "fixed", limit := some (3/2), window := some 1 }
      (build_response ("fixed")
        (current_rps_limit
          { algorithm := "fixed", limit := some (3/2), window := some 1 })
        { algorithm := "fixed", limit := some (3/2), window := some 1 } none)
      = false := by
  with_unfolding_all decide

/-- Concrete instance of `build_response_round_trip` for both parts. -/
theorem build_response_round_trip_witness :
    configs_equal { algorithm := "fixed", limit := some ((120 : ℤ) : ℚ), window := some 1 }
      (build_response ("fixed") (((120 : ℤ) : ℚ) / ((1 : ℤ) : ℚ))
        { algorithm := "fixed", limit := some ((120 : ℤ) : ℚ), window := some 1 } none) = true ∧
    configs_equal
      { algorithm := "token",
        capacity := some (max ⌈(5 : ℚ) * TOKEN_CAPACITY_SECONDS⌉ ⌈MIN_RPS * TOKEN_CAPACITY_SECONDS⌉),
        fillRate := some 5 }
      (build_response ("token") 5
        { algorithm := "token",
          capacity := some (max ⌈(5 : ℚ) * TOKEN_CAPACITY_SECONDS⌉ ⌈MIN_RPS * TOKEN_CAPACITY_SECONDS⌉),
          fillRate := some 5 } none) = true := by
  constructor
  · exact build_response_round_trip.1 _ none 120 1 rfl rfl
      (by with_unfolding_all decide) (Or.inl rfl)
      (by rw [MIN_RPS]; norm_num) (by rw [MAX_RPS]; norm_num)
  · exact build_response_round_trip.2 _ none 5 5000 rfl rfl (by norm_num) rfl
      (by rw [MIN_RPS]; norm_num) (by rw [MAX_RPS]; norm_num)
/-- Unpacking the negated recent-change guard of `recommend_config`:
when the guard is false, any stored `last_change_at` is at least
`MIN_CHANGE_INTERVAL_SECONDS` before `now`. -/
theorem hysteresis_block_neg {state : RecommendationState} {now : ℚ}
    (h : ¬ ((match state.last_change_at with
        | some t => decide (now - t < MIN_CHANGE_INTERVAL_SECONDS)
        | none => false) = true)) :
    ∀ prev ∈ state.last_change_at, MIN_CHANGE_INTERVAL_SECONDS ≤ now - prev := by
  intro prev hprev
  match hlca : state.last_change_at with
  | some t =>
    rw [hlca] at hprev h
    simp only [decide_eq_true_eq] at h
    have hpt : t = prev := by simpa using hprev
    subst hpt
    exact le_of_not_lt h
  | none =>
    rw [hlca] at hprev
    exact absurd hprev (by simp)

/-- Single-call hysteresis: `recommend_config` either leaves the state
untouched (all suppressed paths) or sets `last_change_at := now` with
the minimum interval respected, touching `last_algo_switch_at` only in
that accepting case. -/
theorem recommend_config_step (allowSwitch : Bool) (request : LimitConfigRequest)
    (predicted0 : ℚ) (history : List TimePoint) (state : RecommendationState)
    (now : ℚ) :
    (recommend_config allowSwitch request predicted0 history state now).2 = state ∨
    ((recommend_config allowSwitch request predicted0 history state now).2.last_change_at = some now ∧
     (∀ prev ∈ state.last_change_at, MIN_CHANGE_INTERVAL_SECONDS ≤ now - prev) ∧
     ((recommend_config allowSwitch request predicted0 history state now).2.last_algo_switch_at = state.last_algo_switch_at ∨
      (recommend_config allowSwitch request predicted0 history state now).2.last_algo_switch_at = some now)) := by
  rw [recommend_config]
  repeat' split
  all_goals try exact Or.inl rfl
  all_goals refine Or.inr ⟨rfl, hysteresis_block_neg (by assumption), ?_⟩
  all_goals dsimp only
  all_goals first
    | (left; rfl)
    | (right; rfl)
/-- Claim C5 (confirmed): whenever `recommend_config` assigns
`lastChangeAt := now`, the previous value was unset or at least
`MinChangeIntervalSeconds` old; every suppressed path (equal configs,
small same-algorithm change, or recent change) returns the state
unchanged, so neither `lastChangeAt` nor `lastAlgoSwitchAt` moves; and
across two consecutive calls, two accepted changes are never less than
`MinChangeIntervalSeconds` apart. -/
theorem recommend_config_hysteresis (allowSwitch : Bool)
    (request : LimitConfigRequest) (predicted0 : ℚ) (history : List TimePoint)
    (state : RecommendationState) (now : ℚ) :
    ((recommend_config allowSwitch request predicted0 history state now).2 = state ∨
     ((recommend_config allowSwitch request predicted0 history state now).2.last_change_at = some now ∧
      (∀ prev ∈ state.last_change_at, MIN_CHANGE_INTERVAL_SECONDS ≤ now - prev) ∧
      ((recommend_config allowSwitch request predicted0 history state now).2.last_algo_switch_at = state.last_algo_switch_at ∨
       (recommend_config allowSwitch request predicted0 history state now).2.last_algo_switch_at = some now))) ∧
    (∀ (allowSwitch2 : Bool) (request2 : LimitConfigRequest) (predicted2 : ℚ)
        (history2 : List TimePoint) (now2 : ℚ),
      (recommend_config allowSwitch request predicted0 history state now).2.last_change_at = some now →
      (recommend_config allowSwitch2 request2 predicted2 history2
          (recommend_config allowSwitch request predicted0 history state now).2 now2).2.last_change_at = some now2 →
      now2 = now ∨ MIN_CHANGE_INTERVAL_SECONDS ≤ now2 - now) := by
  refine ⟨recommend_config_step allowSwitch request predicted0 history state now, ?_⟩
  intro a2 r2 p2 h2 now2 h1 h3
  rcases recommend_config_step a2 r2 p2 h2
      (recommend_config allowSwitch request predicted0 history state now).2 now2 with
    heq | ⟨hset, hgap, _⟩
  · rw [heq, h1] at h3
    exact Or.inl (by injection h3 with h; exact h.symm)
  · right
    have hg := hgap now (by rw [h1]; simp)
    simpa using hg

/-- Concrete instance of `recommend_config_hysteresis`: an overload
request accepted at time 0 and again at time 50. -/
theorem recommend_config_hysteresis_witness :
    (50 : ℚ) = 0 ∨ MIN_CHANGE_INTERVAL_SECONDS ≤ (50 : ℚ) - 0 :=
  (recommend_config_hysteresis false
      { observedRps := 100, rejectedRate := some 1,
        currentConfig := { algorithm := "fixed", limit := some 100, window := some 1 } }
      100 [] {} 0).2 false
    { observedRps := 100, rejectedRate := some 1,
      currentConfig := { algorithm := "fixed", limit := some 100, window := some 1 } }
    100 [] 50 (by with_unfolding_all decide) (by with_unfolding_all decide)
/-- On the happy path the endpoint stores the request's config and the
returned recommendation as the last-good pair. -/
theorem limit_config_happy_lastGood (allowSwitch : Bool)
    (request : LimitConfigRequest) (forecastOut : Option ℚ)
    (history : List TimePoint) (state : RecommendationState) (now : ℚ)
    (hok : validate_current_config request.currentConfig = none) :
    (limit_config allowSwitch request forecastOut history state now).2.last_good_config
        = some request.currentConfig ∧
    (limit_config allowSwitch request forecastOut history state now).2.last_good_recommendation
        = some (limit_config allowSwitch request forecastOut history state now).1 := by
  rw [limit_config]
  split
  · next heq => rw [hok] at heq; exact absurd heq (by simp)
  · exact ⟨rfl, rfl⟩

/-- Claim C7 (confirmed): `lastGoodConfig`/`lastGoodRecommendation` are
assigned exactly on the happy path (to the request's config and the
returned recommendation); the invalid-config branch leaves both
unchanged, and the malformed-body handler never writes the state at
all. -/
theorem lastGood_assignment_policy (allowSwitch : Bool)
    (request : LimitConfigRequest) (forecastOut : Option ℚ)
    (history : List TimePoint) (state : RecommendationState) (now : ℚ) :
    (validate_current_config request.currentConfig ≠ none →
      (limit_config allowSwitch request forecastOut history state now).2.last_good_config
          = state.last_good_config ∧
      (limit_config allowSwitch request forecastOut history state now).2.last_good_recommendation
          = state.last_good_recommendation) ∧
    (validate_current_config request.currentConfig = none →
      (limit_config allowSwitch request forecastOut history state now).2.last_good_config
          = some request.currentConfig ∧
      (limit_config allowSwitch request forecastOut history state now).2.last_good_recommendation
          = some (limit_config allowSwitch request forecastOut history state now).1) ∧
    (∀ payload, (request_validation_handler payload state).2 = state) := by
  refine ⟨?_, ?_, ?_⟩
  · intro hne
    rw [limit_config]
    split
    · exact ⟨rfl, rfl⟩
    · next heq => exact absurd heq hne
  · intro hok
    exact limit_config_happy_lastGood allowSwitch request forecastOut history
      state now hok
  · intro payload
    rw [request_validation_handler]
    split
    · rfl
    · split
      · rfl
      · rfl
/-- Claim C3 (amended): the malformed-body handler prefers, in order, a
keep-current reply from the coerced config, then a replay of
`lastGoodRecommendation`, then a keep-current reply from the default
fallback config; and after any successful request, a body with no
usable `currentConfig` record yields a keep-current reply built from
that request's config (the coercion falls back to `lastGoodConfig`),
never a replay. -/
theorem validation_handler_preference :
    (∀ (payload : Option JVal) (state : RecommendationState),
      (request_validation_handler payload state).1 =
        match coerce_current_config payload state.last_good_config with
        | some cfg => keep_current_response cfg state.last_predicted_rps
        | none =>
          match state.last_good_recommendation with
          | some r => r
          | none =>
            keep_current_response default_fallback_config state.last_predicted_rps) ∧
    (∀ (allowSwitch : Bool) (request : LimitConfigRequest)
        (forecastOut : Option ℚ) (history : List TimePoint)
        (state : RecommendationState) (now : ℚ) (fs : List (String × JVal)),
      validate_current_config request.currentConfig = none →
      (∀ v, fs.lookup ("currentConfig") = some v → ∀ gs, v ≠ JVal.obj gs) →
      (request_validation_handler (some (JVal.obj fs))
          (limit_config allowSwitch request forecastOut history state now).2).1 =
        keep_current_response request.currentConfig
          (limit_config allowSwitch request forecastOut history state now).2.last_predicted_rps) := by
  constructor
  · intro payload state
    rw [request_validation_handler]
    split
    · rfl
    · split
      · rfl
      · rfl
  · intro allowSwitch request forecastOut history state now fs hok hnc
    have hlgc := (limit_config_happy_lastGood allowSwitch request forecastOut
      history state now hok).1
    have hco : coerce_current_config (some (JVal.obj fs))
        (some request.currentConfig) = some request.currentConfig := by
      rw [coerce_current_config]
      match hl : fs.lookup ("currentConfig") with
      | some (JVal.obj gs) => exact absurd rfl (hnc _ hl _)
      | some JVal.null => rfl
      | some (JVal.bool b) => rfl
      | some (JVal.num q) => rfl
      | some (JVal.str t) => rfl
      | some (JVal.arr xs) => rfl
      | none => rfl
    rw [request_validation_handler, hlgc, hco]

/-- Counterexample to claim C3's replay scenario: after one valid
request whose decision lowered the limit (overload, 100 to 70), the
body `\x7b"garbage": true\x7d` is answered with a keep-current reply from
the last good config, which differs from the stored last
recommendation — the claim's promised replay does not happen. -/
theorem validation_handler_replay_cex :
    ((limit_config false
        { observedRps := 100, rejectedRate := some 1,
          currentConfig := { algorithm := "fixed", limit := some 100, window := some 1 } }
        none [] {} 0).2.last_good_recommendation =
      some (limit_config false
        { observedRps := 100, rejectedRate := some 1,
          currentConfig := { algorithm := "fixed", limit := some 100, window := some 1 } }
        none [] {} 0).1) ∧
    (request_validation_handler (some (JVal.obj [(("garbage"), JVal.bool true)]))
        (limit_config false
          { observedRps := 100, rejectedRate := some 1,
            currentConfig := { algorithm := "fixed", limit := some 100, window := some 1 } }
          none [] {} 0).2).1 ≠
      (limit_config false
        { observedRps := 100, rejectedRate := some 1,
          currentConfig := { algorithm := "fixed", limit := some 100, window := some 1 } }
        none [] {} 0).1 := by
  with_unfolding_all decide
/-- Concrete instance of `lastGood_assignment_policy`. -/
theorem lastGood_assignment_policy_witness :
    ((limit_config false
        { observedRps := 100,
          currentConfig := { algorithm := "fixed", limit := some 120, window := some 1 } }
        none [] {} 0).2.last_good_config =
          some { algorithm := "fixed", limit := some 120, window := some 1 } ∧
     (limit_config false
        { observedRps := 100,
          currentConfig := { algorithm := "fixed", limit := some 120, window := some 1 } }
        none [] {} 0).2.last_good_recommendation =
          some (limit_config false
            { observedRps := 100,
              currentConfig := { algorithm := "fixed", limit := some 120, window := some 1 } }
            none [] {} 0).1) ∧
    (request_validation_handler none ({} : RecommendationState)).2 = {} :=
  ⟨(lastGood_assignment_policy false
      { observedRps := 100,
        currentConfig := { algorithm := "fixed", limit := some 120, window := some 1 } }
      none [] {} 0).2.1 (by with_unfolding_all decide),
   (lastGood_assignment_policy false
      { observedRps := 100,
        currentConfig := { algorithm := "fixed", limit := some 120, window := some 1 } }
      none [] {} 0).2.2 none⟩

/-- Concrete instance of `validation_handler_preference`. -/
theorem validation_handler_preference_witness :
    (request_validation_handler (some (JVal.obj [(("garbage"), JVal.bool true)]))
        (limit_config false
          { observedRps := 100,
            currentConfig := { algorithm := "fixed", limit := some 120, window := some 1 } }
          none [] {} 0).2).1 =
      keep_current_response
        { algorithm := "fixed", limit := some 120, window := some 1 }
        (limit_config false
          { observedRps := 100,
            currentConfig := { algorithm := "fixed", limit := some 120, window := some 1 } }
          none [] {} 0).2.last_predicted_rps :=
  validation_handler_preference.2 false
    { observedRps := 100,
      currentConfig := { algorithm := "fixed", limit := some 120, window := some 1 } }
    none [] {} 0 [(("garbage"), JVal.bool true)]
    (by with_unfolding_all decide)
    (by
      intro v hv gs
      have hnone : List.lookup ("currentConfig")
          [(("garbage"), JVal.bool true)] = none := by with_unfolding_all rfl
      rw [hnone] at hv
      exact Option.noConfusion hv)
instance : IsTrans TimePoint (fun p q => p.ts < q.ts) :=
  ⟨fun _ _ _ h1 h2 => lt_trans h1 h2⟩

/-- The trim window is positive. -/
theorem collectorWindow_pos : (0 : ℚ) < collectorWindowSeconds :=
  lt_of_lt_of_le zero_lt_one (le_max_left 1 _)

/-- The point cap is at least 1. -/
theorem collectorMaxPoints_pos : 1 ≤ collectorMaxPoints :=
  le_trans (by norm_num) (le_max_left 2 MAX_HISTORY_POINTS)

/-- A non-empty suffix has the same last element as the whole list. -/
theorem getLast?_of_suffix {α : Type} {s l : List α} (h : List.IsSuffix s l)
    (hs : s ≠ []) : l.getLast? = s.getLast? := by
  obtain ⟨t, rfl⟩ := h
  rw [List.getLast?_append]
  match hx : s.getLast? with
  | some x => rfl
  | none => exact absurd (List.getLast?_eq_none_iff.mp hx) hs

/-- Trimming only removes elements. -/
theorem trimBuf_sublist (pts : List TimePoint) : List.Sublist (trimBuf pts) pts := by
  rw [trimBuf]
  split
  · exact List.Sublist.refl pts
  · exact (List.drop_sublist _ _).trans (List.dropWhile_sublist _)

/-- Trimming a non-empty buffer keeps it non-empty and keeps its tail
(the tail never violates either trim criterion). -/
theorem trimBuf_getLast? (pts : List TimePoint) (h : pts ≠ []) :
    trimBuf pts ≠ [] ∧ (trimBuf pts).getLast? = pts.getLast? := by
  obtain ⟨tl, hl⟩ : ∃ tl, pts.getLast? = some tl := by
    match hx : pts.getLast? with
    | some x => exact ⟨x, rfl⟩
    | none => exact absurd (List.getLast?_eq_none_iff.mp hx) h
  rw [trimBuf, hl]
  have htl : tl ∈ pts := List.mem_of_getLast?_eq_some hl
  have hnp : ¬ ((fun p : TimePoint =>
      decide (p.ts < tl.ts - collectorWindowSeconds)) tl = true) := by
    simp only [decide_eq_true_eq]
    have := collectorWindow_pos
    push_neg
    linarith
  have hagedne : pts.dropWhile (fun p : TimePoint =>
      decide (p.ts < tl.ts - collectorWindowSeconds)) ≠ [] := by
    intro hnil
    exact hnp (List.dropWhile_eq_nil_iff.mp hnil tl htl)
  have hagedlast : (pts.dropWhile (fun p : TimePoint =>
      decide (p.ts < tl.ts - collectorWindowSeconds))).getLast? = some tl := by
    rw [← getLast?_of_suffix (List.dropWhile_suffix _) hagedne, hl]
  have hagedlen : 0 < (pts.dropWhile (fun p : TimePoint =>
      decide (p.ts < tl.ts - collectorWindowSeconds))).length :=
    List.length_pos.mpr hagedne
  have hfinne : (pts.dropWhile (fun p : TimePoint =>
      decide (p.ts < tl.ts - collectorWindowSeconds))).drop
        ((pts.dropWhile (fun p : TimePoint =>
          decide (p.ts < tl.ts - collectorWindowSeconds))).length -
         collectorMaxPoints) ≠ [] := by
    rw [← List.length_pos, List.length_drop]
    have := collectorMaxPoints_pos
    omega
  refine ⟨hfinne, ?_⟩
  rw [← getLast?_of_suffix (List.drop_suffix _ _) hfinne, hagedlast]

/-- After trimming a sorted buffer, every surviving point is within the
history window of the tail. -/
theorem trimBuf_mem_ge (l : List TimePoint)
    (hch : List.Chain' (fun p q : TimePoint => p.ts < q.ts) l)
    (tl : TimePoint) (hl : l.getLast? = some tl) :
    ∀ y ∈ trimBuf l, tl.ts - collectorWindowSeconds ≤ y.ts := by
  rw [trimBuf, hl]
  intro y hy
  have hy2 : y ∈ l.dropWhile (fun p : TimePoint =>
      decide (p.ts < tl.ts - collectorWindowSeconds)) :=
    List.drop_subset _ _ hy
  obtain ⟨h0, rest, haged⟩ : ∃ h0 rest, l.dropWhile (fun p : TimePoint =>
      decide (p.ts < tl.ts - collectorWindowSeconds)) = h0 :: rest := by
    match hag : l.dropWhile (fun p : TimePoint =>
        decide (p.ts < tl.ts - collectorWindowSeconds)) with
    | [] => rw [hag] at hy2; exact absurd hy2 (by simp)
    | a :: b => exact ⟨a, b, rfl⟩
  have hnp : ¬ (h0.ts < tl.ts - collectorWindowSeconds) := by
    have hh := List.head?_dropWhile_not (fun p : TimePoint =>
      decide (p.ts < tl.ts - collectorWindowSeconds)) l
    rw [haged] at hh
    simpa using hh
  have hsorted : List.Chain' (fun p q : TimePoint => p.ts < q.ts) (h0 :: rest) :=
    haged ▸ hch.sublist (List.dropWhile_sublist _)
  have hpw := List.chain'_iff_pairwise.mp hsorted
  rw [haged] at hy2
  rcases List.mem_cons.mp hy2 with rfl | hy3
  · exact le_of_not_lt hnp
  · have h01 : h0.ts < y.ts := (List.pairwise_cons.mp hpw).1 y hy3
    have h02 := le_of_not_lt hnp
    linarith

/-- The bumped timestamp strictly exceeds the old tail. -/
theorem bumpTs_gt (pts : List TimePoint) (ts : ℚ) :
    ∀ tl ∈ pts.getLast?, tl.ts < bumpTs pts ts := by
  intro tl htl
  have hx : pts.getLast? = some tl := Option.mem_def.mp htl
  rw [bumpTs, hx]
  dsimp only
  split
  · have husec : (0 : ℚ) < usec := by norm_num [usec]
    linarith
  · next hlt => exact lt_of_not_le hlt

/-- One append preserves strict timestamp monotonicity. -/
theorem add_point_chain (pts : List TimePoint) (ts rps : ℚ)
    (h : List.Chain' (fun p q : TimePoint => p.ts < q.ts) pts) :
    List.Chain' (fun p q : TimePoint => p.ts < q.ts) (add_point pts ts rps) := by
  rw [add_point]
  apply List.Chain'.sublist _ (trimBuf_sublist _)
  rw [List.chain'_append]
  refine ⟨h, List.chain'_singleton _, ?_⟩
  intro x hx y hy
  have hyv : (⟨bumpTs pts ts, rps⟩ : TimePoint) = y := by simpa using hy
  rw [← hyv]
  exact bumpTs_gt pts ts x hx

/-- One append leaves at most `collectorMaxPoints` points. -/
theorem add_point_length (pts : List TimePoint) (ts rps : ℚ) :
    (add_point pts ts rps).length ≤ collectorMaxPoints := by
  rw [add_point, trimBuf]
  split
  · next heq => exact absurd (List.getLast?_eq_none_iff.mp heq) (by simp)
  · rw [List.length_drop]
    omega

/-- After an append to a sorted buffer, the newest and oldest
timestamps are at most the history window apart. -/
theorem add_point_span (pts : List TimePoint) (ts rps : ℚ)
    (h : List.Chain' (fun p q : TimePoint => p.ts < q.ts) pts) :
    ((add_point pts ts rps).getLast?.getD ⟨0, 0⟩).ts -
      ((add_point pts ts rps).head?.getD ⟨0, 0⟩).ts ≤ collectorWindowSeconds := by
  have hl : (pts ++ [(⟨bumpTs pts ts, rps⟩ : TimePoint)]).getLast? =
      some ⟨bumpTs pts ts, rps⟩ := List.getLast?_concat _
  have hch : List.Chain' (fun p q : TimePoint => p.ts < q.ts)
      (pts ++ [⟨bumpTs pts ts, rps⟩]) := by
    rw [List.chain'_append]
    refine ⟨h, List.chain'_singleton _, ?_⟩
    intro x hx y hy
    have hyv : (⟨bumpTs pts ts, rps⟩ : TimePoint) = y := by simpa using hy
    rw [← hyv]
    exact bumpTs_gt pts ts x hx
  obtain ⟨htne, htlast⟩ := trimBuf_getLast? (pts ++ [⟨bumpTs pts ts, rps⟩]) (by simp)
  have hgdlast : (add_point pts ts rps).getLast?.getD ⟨0, 0⟩ =
      (⟨bumpTs pts ts, rps⟩ : TimePoint) := by
    rw [add_point, htlast, hl]
    rfl
  have hheadmem : (add_point pts ts rps).head?.getD ⟨0, 0⟩ ∈
      trimBuf (pts ++ [⟨bumpTs pts ts, rps⟩]) := by
    rw [add_point]
    match hh : (trimBuf (pts ++ [(⟨bumpTs pts ts, rps⟩ : TimePoint)])).head? with
    | some a =>
      simp only [Option.getD_some]
      exact List.mem_of_mem_head? (by simp [hh, Option.mem_def])
    | none =>
      exact absurd (List.head?_eq_none_iff.mp hh) htne
  have hge := trimBuf_mem_ge (pts ++ [⟨bumpTs pts ts, rps⟩]) hch
    ⟨bumpTs pts ts, rps⟩ hl _ hheadmem
  rw [hgdlast]
  linarith

/-- Claim C6 (confirmed): after any sequence of `add_point` calls the
buffer's timestamps are strictly increasing (a non-increasing incoming
timestamp is bumped one microsecond past the tail by `bumpTs` inside
`add_point`), the length is at most `MaxHistoryPoints`, and the newest
and oldest timestamps differ by at most `HistoryWindowSeconds`. -/
theorem dataCollector_invariant (calls : List (ℚ × ℚ)) :
    List.Chain' (fun p q : TimePoint => p.ts < q.ts) (bufferAppendAll calls) ∧
    (bufferAppendAll calls).length ≤ MAX_HISTORY_POINTS ∧
    ((bufferAppendAll calls).getLast?.getD ⟨0, 0⟩).ts -
      ((bufferAppendAll calls).head?.getD ⟨0, 0⟩).ts ≤
        ((HISTORY_WINDOW_SECONDS : ℤ) : ℚ) := by
  have hmaxeq : collectorMaxPoints = MAX_HISTORY_POINTS := by
    norm_num [collectorMaxPoints, MAX_HISTORY_POINTS]
  have hweq : collectorWindowSeconds = ((HISTORY_WINDOW_SECONDS : ℤ) : ℚ) := by
    norm_num [collectorWindowSeconds, HISTORY_WINDOW_SECONDS]
  induction calls using List.reverseRecOn with
  | nil =>
    refine ⟨List.chain'_nil, by norm_num [bufferAppendAll, MAX_HISTORY_POINTS], ?_⟩
    norm_num [bufferAppendAll, HISTORY_WINDOW_SECONDS]
  | append_singleton l c ih =>
    have hfold : bufferAppendAll (l ++ [c]) = add_point (bufferAppendAll l) c.1 c.2 := by
      rw [bufferAppendAll, bufferAppendAll, List.foldl_append]
      rfl
    rw [hfold]
    refine ⟨add_point_chain _ _ _ ih.1, ?_, ?_⟩
    · rw [← hmaxeq]
      exact add_point_length _ _ _
    · rw [← hweq]
      exact add_point_span _ _ _ ih.1
/-- Round-half-even never goes below the floor. -/
theorem roundHalfEven_ge_floor (q : ℚ) : ⌊q⌋ ≤ roundHalfEven q := by
  rw [roundHalfEven]
  split
  · exact le_refl _
  · split
    · omega
    · split
      · exact le_refl _
      · omega

/-- `round(x, 3)` of a non-negative value is non-negative. -/
theorem round3_nonneg (q : ℚ) (h : 0 ≤ q) : 0 ≤ round3 q := by
  rw [round3]
  have h1 : (0 : ℤ) ≤ ⌊q * 1000⌋ := Int.floor_nonneg.mpr (by positivity)
  have h3 : (0 : ℤ) ≤ roundHalfEven (q * 1000) :=
    le_trans h1 (roundHalfEven_ge_floor (q * 1000))
  have h4 : (0 : ℚ) ≤ (roundHalfEven (q * 1000) : ℚ) := by exact_mod_cast h3
  positivity

/-- `round(x, 3)` of a value at least 1 is positive. -/
theorem round3_pos (q : ℚ) (h : 1 ≤ q) : 0 < round3 q := by
  rw [round3]
  have h1 : (1000 : ℤ) ≤ ⌊q * 1000⌋ := by
    rw [Int.le_floor]
    push_cast
    linarith
  have h3 : (1000 : ℤ) ≤ roundHalfEven (q * 1000) :=
    le_trans h1 (roundHalfEven_ge_floor (q * 1000))
  have h4 : (1000 : ℚ) ≤ (roundHalfEven (q * 1000) : ℚ) := by exact_mod_cast h3
  nlinarith

/-- A fixed/sliding config with present, positive limit and window
validates. -/
theorem validate_fixed_none {c : LimitConfigIn}
    (hmem : c.algorithm ∈ ALLOWED_ALGORITHMS)
    (hfs : c.algorithm = "fixed" ∨ c.algorithm = "sliding")
    {l : ℚ} {w : ℤ} (hl : c.limit = some l) (hw : c.window = some w)
    (hlpos : 0 < l) (hwpos : 0 < w) :
    validate_current_config c = none := by
  rw [validate_current_config, if_neg (by simpa using hmem), if_pos hfs,
    if_neg (by rw [hl, hw]; simp),
    if_neg (by rw [hl, hw]; push_neg; exact ⟨by simpa using hlpos, by simpa using hwpos⟩)]

/-- A token config with present, positive capacity and fill rate
validates. -/
theorem validate_token_none {c : LimitConfigIn}
    (hmem : c.algorithm ∈ ALLOWED_ALGORITHMS)
    (htok : c.algorithm = "token")
    {k : ℤ} {f : ℚ} (hk : c.capacity = some k) (hf : c.fillRate = some f)
    (hkpos : 0 < k) (hfpos : 0 < f) :
    validate_current_config c = none := by
  have hns : ¬ (c.algorithm = "fixed" ∨ c.algorithm = "sliding") := by
    rw [htok]; simp
  rw [validate_current_config, if_neg (by simpa using hmem), if_neg hns,
    if_pos htok,
    if_neg (by rw [hk, hf]; simp),
    if_neg (by rw [hk, hf]; push_neg; exact ⟨by simpa using hkpos, by simpa using hfpos⟩)]

/-- The minimum token capacity bound `ceil(MinRps * TokenCapacitySeconds)`
evaluates to 2 at the defaults. -/
theorem ceil_two_q : ⌈MIN_RPS * TOKEN_CAPACITY_SECONDS⌉ = (2 : ℤ) := by
  rw [MIN_RPS, TOKEN_CAPACITY_SECONDS]
  norm_num

/-- Every `build_response` output for an allowed algorithm and a
pydantic-well-formed current config satisfies the response invariant. -/
theorem build_response_ok (algorithm : String) (target_rps : ℚ)
    (c : LimitConfigIn) (p : Option ℚ)
    (halgo : algorithm ∈ ALLOWED_ALGORITHMS)
    (hwin : ∀ w ∈ c.window, 0 < w)
    (hp : 0 ≤ p.getD 0) :
    ResponseOK (build_response algorithm target_rps c p) := by
  have hmaxopt : maxRpsOpt = some 10000 := by
    rw [maxRpsOpt, if_pos (by norm_num [MAX_RPS]), MAX_RPS]
  by_cases hfs : algorithm = "fixed" ∨ algorithm = "sliding"
  · obtain ⟨w', hw'eq, hw'pos⟩ : ∃ w', (match c.window with
        | some w => if w = 0 then DEFAULT_WINDOW_SECONDS else w
        | none => DEFAULT_WINDOW_SECONDS) = w' ∧ 0 < w' := by
      match hcw : c.window with
      | some w =>
        have hwp := hwin w (by rw [hcw]; rfl)
        refine ⟨w, ?_, hwp⟩
        show (if w = 0 then DEFAULT_WINDOW_SECONDS else w) = w
        rw [if_neg (by omega)]
      | none =>
        exact ⟨DEFAULT_WINDOW_SECONDS, rfl, by norm_num [DEFAULT_WINDOW_SECONDS]⟩
    have hshape : build_response algorithm target_rps c p =
        { algorithm := algorithm,
          limit := some (min (max ⌈target_rps * (w' : ℚ)⌉ ⌈MIN_RPS * (w' : ℚ)⌉)
            ⌊(10000 : ℚ) * (w' : ℚ)⌋),
          window := some w', predictedRps := p,
          validFor := some FORECAST_SECONDS } := by
      rw [build_response, if_pos hfs, hmaxopt, hw'eq]
    have hmin : ⌈MIN_RPS * (w' : ℚ)⌉ = w' := by
      rw [MIN_RPS, one_mul, Int.ceil_intCast]
    have hfloor : ⌊(10000 : ℚ) * (w' : ℚ)⌋ = 10000 * w' := by
      rw [show (10000 : ℚ) * (w' : ℚ) = ((10000 * w' : ℤ) : ℚ) by push_cast; ring,
        Int.floor_intCast]
    have hLpos : 0 < min (max ⌈target_rps * (w' : ℚ)⌉ ⌈MIN_RPS * (w' : ℚ)⌉)
        ⌊(10000 : ℚ) * (w' : ℚ)⌋ := by
      rw [hmin, hfloor, lt_min_iff]
      constructor
      · exact lt_of_lt_of_le hw'pos (le_max_right _ _)
      · positivity
    rw [hshape]
    unfold ResponseOK
    refine ⟨?_, rfl, hp⟩
    refine validate_fixed_none (by simpa using halgo) (by simpa using hfs)
      (l := ((min (max ⌈target_rps * (w' : ℚ)⌉ ⌈MIN_RPS * (w' : ℚ)⌉)
        ⌊(10000 : ℚ) * (w' : ℚ)⌋ : ℤ) : ℚ)) (w := w') rfl rfl ?_ hw'pos
    exact_mod_cast hLpos
  · have htok : algorithm = "token" := by
      rw [ALLOWED_ALGORITHMS] at halgo
      push_neg at hfs
      rcases List.mem_cons.mp halgo with h | h2
      · exact absurd h hfs.1
      rcases List.mem_cons.mp h2 with h | h3
      · exact absurd h hfs.2
      rcases List.mem_cons.mp h3 with h | h4
      · exact h
      · exact absurd h4 (by simp)
    have hF : (1 : ℚ) ≤ clamp target_rps MIN_RPS maxRpsOpt := by
      rw [hmaxopt, clamp, MIN_RPS]
      exact le_max_left _ _
    have hshape : build_response algorithm target_rps c p =
        { algorithm := algorithm,
          capacity := some (if ((max ⌈clamp target_rps MIN_RPS maxRpsOpt * TOKEN_CAPACITY_SECONDS⌉
              ⌈MIN_RPS * TOKEN_CAPACITY_SECONDS⌉ : ℤ) : ℚ) <
                clamp target_rps MIN_RPS maxRpsOpt then
              ⌈clamp target_rps MIN_RPS maxRpsOpt⌉
            else max ⌈clamp target_rps MIN_RPS maxRpsOpt * TOKEN_CAPACITY_SECONDS⌉
              ⌈MIN_RPS * TOKEN_CAPACITY_SECONDS⌉),
          fillRate := some (round3 (clamp target_rps MIN_RPS maxRpsOpt)),
          predictedRps := p, validFor := some FORECAST_SECONDS } := by
      rw [build_response, if_neg hfs]
      dsimp only
      rw [if_neg (show ¬ (MAX_CAPACITY > 0) by norm_num [MAX_CAPACITY])]
    have hKpos : 0 < (if ((max ⌈clamp target_rps MIN_RPS maxRpsOpt * TOKEN_CAPACITY_SECONDS⌉
          ⌈MIN_RPS * TOKEN_CAPACITY_SECONDS⌉ : ℤ) : ℚ) <
            clamp target_rps MIN_RPS maxRpsOpt then
          ⌈clamp target_rps MIN_RPS maxRpsOpt⌉
        else max ⌈clamp target_rps MIN_RPS maxRpsOpt * TOKEN_CAPACITY_SECONDS⌉
          ⌈MIN_RPS * TOKEN_CAPACITY_SECONDS⌉) := by
      split
      · have h1 : (1 : ℚ) ≤ (⌈clamp target_rps MIN_RPS maxRpsOpt⌉ : ℚ) :=
          le_trans hF (Int.le_ceil _)
        exact_mod_cast lt_of_lt_of_le zero_lt_one h1
      · have := ceil_two_q
        omega
    rw [hshape]
    unfold ResponseOK
    refine ⟨?_, rfl, hp⟩
    refine validate_token_none (by simpa using halgo) (by simpa using htok)
      rfl rfl hKpos (round3_pos _ hF)

/-- `keep_current_response` of a validated, keep-safe config satisfies
the response invariant. -/
theorem keep_current_ok (c : LimitConfigIn) (p : Option ℚ)
    (hval : validate_current_config c = none) (hks : KeepSafe c)
    (hp : 0 ≤ p.getD 0) :
    ResponseOK (keep_current_response c p) := by
  have hmem := validate_none_allowed c hval
  by_cases hfs : c.algorithm = "fixed" ∨ c.algorithm = "sliding"
  · obtain ⟨l, w, hl, hw, hlpos, hwpos⟩ := validate_none_fixed c hval hfs
    have hl1 : (1 : ℚ) ≤ l := hks l (by rw [hl]; rfl) hfs
    have hpy : 1 ≤ pyInt l := by
      rw [pyInt, if_pos (by linarith)]
      rw [Int.le_floor]
      exact_mod_cast hl1
    unfold ResponseOK
    refine ⟨?_, rfl, hp⟩
    refine validate_fixed_none (c := (keep_current_response c p).asIn)
      (by simpa using hmem) (by simpa using hfs)
      (l := ((pyInt l : ℤ) : ℚ)) (w := w) ?_ ?_ ?_ hwpos
    · simp [keep_current_response, LimitConfigResponse.asIn, hl]
    · simp [keep_current_response, LimitConfigResponse.asIn, hw]
    · exact_mod_cast lt_of_lt_of_le zero_lt_one (by exact_mod_cast hpy)
  · have htok : c.algorithm = "token" := by
      rw [ALLOWED_ALGORITHMS] at hmem
      push_neg at hfs
      rcases List.mem_cons.mp hmem with h | h2
      · exact absurd h hfs.1
      rcases List.mem_cons.mp h2 with h | h3
      · exact absurd h hfs.2
      rcases List.mem_cons.mp h3 with h | h4
      · exact h
      · exact absurd h4 (by simp)
    obtain ⟨k, f, hk, hf, hkpos, hfpos⟩ := validate_none_token c hval htok
    unfold ResponseOK
    refine ⟨?_, rfl, hp⟩
    refine validate_token_none (c := (keep_current_response c p).asIn)
      (by simpa using hmem) (by simpa using htok)
      (k := k) (f := f) ?_ ?_ hkpos hfpos
    · simp [keep_current_response, LimitConfigResponse.asIn, hk]
    · simp [keep_current_response, LimitConfigResponse.asIn, hf]

/-- The synthesized default fallback config validates and is keep-safe. -/
theorem default_fallback_ok :
    validate_current_config default_fallback_config = none ∧
    KeepSafe default_fallback_config := by
  with_unfolding_all decide

/-- The coercion core only returns the fallback or a config it has
validated. -/
theorem coerce_core_sound (cfs : List (String × JVal))
    (fb : Option LimitConfigIn) :
    ∀ c, coerce_core cfs fb = some c →
      validate_current_config c = none ∨ fb = some c := by
  intro c hc
  unfold coerce_core at hc
  split at hc
  all_goals dsimp only at hc
  all_goals split at hc
  all_goals try exact Or.inr hc
  all_goals split at hc
  all_goals try exact Or.inr hc
  all_goals split at hc
  all_goals try exact Or.inr hc
  all_goals
    next hv =>
    injection hc with h
    exact Or.inl (h ▸ hv)

/-- `coerce_current_config` only returns the fallback or a config it has
validated. -/
theorem coerce_sound (payload : Option JVal) (fb : Option LimitConfigIn) :
    ∀ c, coerce_current_config payload fb = some c →
      validate_current_config c = none ∨ fb = some c := by
  intro c hc
  match payload with
  | none => exact Or.inr hc
  | some JVal.null => exact Or.inr hc
  | some (JVal.bool b) => exact Or.inr hc
  | some (JVal.num q) => exact Or.inr hc
  | some (JVal.str t) => exact Or.inr hc
  | some (JVal.arr xs) => exact Or.inr hc
  | some (JVal.obj fs) =>
    match hl : fs.lookup ("currentConfig") with
    | some (JVal.obj cfs) =>
      refine coerce_core_sound cfs fb c ?_
      rw [coerce_current_config, hl] at hc
      exact hc
    | some JVal.null =>
      rw [coerce_current_config, hl] at hc
      exact Or.inr hc
    | some (JVal.bool b) =>
      rw [coerce_current_config, hl] at hc
      exact Or.inr hc
    | some (JVal.num q) =>
      rw [coerce_current_config, hl] at hc
      exact Or.inr hc
    | some (JVal.str t) =>
      rw [coerce_current_config, hl] at hc
      exact Or.inr hc
    | some (JVal.arr xs) =>
      rw [coerce_current_config, hl] at hc
      exact Or.inr hc
    | none =>
      rw [coerce_current_config, hl] at hc
      exact Or.inr hc

/-- The policy's reply is always a `build_response` for an allowed
algorithm, carrying the rounded clamped forecast. -/
theorem recommend_config_result (allowSwitch : Bool)
    (request : LimitConfigRequest) (predicted0 : ℚ)
    (history : List TimePoint) (state : RecommendationState) (now : ℚ)
    (hmem : request.currentConfig.algorithm ∈ ALLOWED_ALGORITHMS) :
    ∃ a t, a ∈ ALLOWED_ALGORITHMS ∧
      (recommend_config allowSwitch request predicted0 history state now).1 =
        build_response a t request.currentConfig
          (some (round3 (clamp predicted0 0 maxRpsOpt))) := by
  rw [recommend_config]
  repeat' split
  all_goals dsimp only
  all_goals refine ⟨_, _, ?_, rfl⟩
  all_goals first
    | exact hmem
    | decide
/-- Claim C1 (amended): every decision response — happy path,
invalid-config branch, and every malformed-body branch — reads back as a
valid IncomingConfig with `validFor = ForecastSeconds` and a
non-negative `predictedRps`, for a pydantic-well-formed request and a
state maintained by the happy path, provided every fixed/sliding config
used to build a keep-current reply (the stored last-good config and any
coerced config) has `limit ≥ 1`, so that the `int()` truncation keeps it
positive. -/
theorem limit_config_response_ok (allowSwitch : Bool)
    (request : LimitConfigRequest) (forecastOut : Option ℚ)
    (history : List TimePoint) (state : RecommendationState) (now : ℚ)
    (payload : Option JVal)
    (hreq : request.WF) (hst : StateOK state)
    (hco : ∀ c, coerce_current_config payload state.last_good_config = some c →
      KeepSafe c) :
    ResponseOK (limit_config allowSwitch request forecastOut history state now).1 ∧
    ResponseOK (request_validation_handler payload state).1 := by
  obtain ⟨hlg, hlr, hlp⟩ := hst
  have hmaxopt : maxRpsOpt = some 10000 := by
    rw [maxRpsOpt, if_pos (by norm_num [MAX_RPS]), MAX_RPS]
  have hcl0 : ∀ x : ℚ, 0 ≤ clamp x 0 maxRpsOpt := by
    intro x
    rw [hmaxopt, clamp]
    exact le_max_left _ _
  constructor
  · rw [limit_config]
    split
    · dsimp only
      have hpred : (0 : ℚ) ≤ (some (round3 (clamp
          (forecastOut.getD request.observedRps) 0 maxRpsOpt))).getD 0 := by
        simp only [Option.getD_some]
        exact round3_nonneg _ (hcl0 _)
      match hfb : state.last_good_config with
      | some cfg =>
        exact keep_current_ok cfg _ (hlg cfg (by rw [hfb]; exact rfl)).1
          (hlg cfg (by rw [hfb]; exact rfl)).2 hpred
      | none =>
        exact keep_current_ok default_fallback_config _ default_fallback_ok.1
          default_fallback_ok.2 hpred
    · next hok =>
      dsimp only
      obtain ⟨_, _, _, _, hcwf⟩ := hreq
      obtain ⟨_, hwin, _, _⟩ := hcwf
      obtain ⟨a, t, hamem, heq⟩ := recommend_config_result allowSwitch request
        (clamp (forecastOut.getD request.observedRps) 0 maxRpsOpt) history
        { state with last_predicted_rps := some (round3 (clamp
            (forecastOut.getD request.observedRps) 0 maxRpsOpt)) } now
        (validate_none_allowed _ hok)
      rw [heq]
      refine build_response_ok a t request.currentConfig _ hamem hwin ?_
      simp only [Option.getD_some]
      exact round3_nonneg _ (hcl0 _)
  · rw [request_validation_handler]
    split
    · next cfg hcoe =>
      have hv : validate_current_config cfg = none := by
        rcases coerce_sound payload state.last_good_config cfg hcoe with h | h
        · exact h
        · exact (hlg cfg (by rw [h]; exact rfl)).1
      exact keep_current_ok cfg _ hv (hco cfg hcoe) hlp
    · split
      · next r hr =>
        exact hlr r (by rw [hr]; exact rfl)
      · exact keep_current_ok _ _ default_fallback_ok.1 default_fallback_ok.2 hlp
/-- Counterexample to claim C1 as stated: the config with limit 0.5 and
window 1 passes validation, so a happy request stores it as
`lastGoodConfig`; a following request with an invalid algorithm takes
the invalid-config branch, whose keep-current reply truncates the limit
to 0 and fails `validate_current_config`. -/
theorem limit_config_response_ok_cex :
    validate_current_config
      { algorithm := "fixed", limit := some (1/2), window := some 1 } = none ∧
    validate_current_config
      ((limit_config false
        { observedRps := 100, currentConfig := { algorithm := "bogus" } }
        none []
        (limit_config false
          { observedRps := 100,
            currentConfig :=
              { algorithm := "fixed", limit := some (1/2), window := some 1 } }
          none [] {} 0).2
        1).1).asIn ≠ none := by
  with_unfolding_all decide

/-- Concrete instance of `limit_config_response_ok`. -/
theorem limit_config_response_ok_witness :
    ResponseOK (limit_config false
      { observedRps := 100,
        currentConfig := { algorithm := "fixed", limit := some 120, window := some 1 } }
      none [] {} 0).1 ∧
    ResponseOK (request_validation_handler
      (some (JVal.obj [(("garbage"), JVal.bool true)])) {}).1 :=
  limit_config_response_ok false
    { observedRps := 100,
      currentConfig := { algorithm := "fixed", limit := some 120, window := some 1 } }
    none [] {} 0 (some (JVal.obj [(("garbage"), JVal.bool true)]))
    (by with_unfolding_all decide) (by with_unfolding_all decide)
    (by
      intro c hc
      have hnone : coerce_current_config
          (some (JVal.obj [(("garbage"), JVal.bool true)])) none = none := by
        with_unfolding_all decide
      rw [show ({} : RecommendationState).last_good_config = none from rfl,
        hnone] at hc
      exact Option.noConfusion hc)
end RPS
